import Mathlib

/-!
Shallow embedding of the zounds-rs resource-binding and double-buffered
simulation core (src/bindable.rs, src/buffer_copy.rs, src/life.rs,
src/debug_buffer.rs), with theorems settling the spec's claims about it.

GPU-side handles (wgpu device objects, shader modules, buffers, texture
views, samplers) are modelled as numeric ids handed out by a `Device`
allocation counter; descriptor records that the code builds and hands to
wgpu are modelled structurally.  Machine integers (`u32`) are modelled as
`Nat` with explicit wrap-around (mod 2^32) at the arithmetic the code
performs on them.  Fallible code (Rust `assert_eq!` panics) is modelled
with `Except`/`Option`.

The modules `src/dimensions.rs` and `src/directions.rs` are referenced by
the code but are not present; the handful of items the core uses from them
(`Dimensions`, `RenderDir`, `RenderMotion`, `RenderSources`) are modelled
from the spec, and each such definition is marked `Modelled from the spec`.
-/

namespace Zounds

/-- Modelled from the spec: `src/dimensions.rs` is not present.  A grid
dimension is a width and a height (u32 values, here Nat); spec section 3. -/
structure Dimensions where
  width : Nat
  height : Nat
  deriving DecidableEq

/-- Modelled from the spec: `Dimensions::area` is width times height
(spec section 3, Grid Buffer: byteSize = width*height*sizeof(T)). -/
def Dimensions.area (d : Dimensions) : Nat := d.width * d.height

/-- Modelled from the spec: `src/directions.rs` is not present.  Phase is a
two-valued state, Forward / Backward (spec section 3). -/
inductive RenderDir where
  | Forward
  | Backward
  deriving DecidableEq

/-- Modelled from the spec: Phase is computed deterministically as
stepCount mod 2 (spec section 3); Forward is the even phase. -/
def RenderDir.dir (n : Nat) : RenderDir :=
  if n % 2 = 0 then .Forward else .Backward

/-- Numeric value of a phase: Forward is 0, Backward is 1. -/
def RenderDir.toNat : RenderDir → Nat
  | .Forward => 0
  | .Backward => 1

/-- The phase other than the given one. -/
def RenderDir.other : RenderDir → RenderDir
  | .Forward => .Backward
  | .Backward => .Forward

/-- Debug-formatting of a direction, used for buffer labels. -/
def RenderDir.describe : RenderDir → String
  | .Forward => "Forward"
  | .Backward => "Backward"

/-- Modelled from the spec: `RenderMotion<T>` is a fixed two-entry table
indexed by Phase (spec section 4.2: "a fixed two-entry table of binding
sets"). -/
structure RenderMotion (α : Type) where
  forward : α
  backward : α
  deriving DecidableEq

/-- Look up the table entry for a phase. -/
def RenderMotion.get {α : Type} (m : RenderMotion α) : RenderDir → α
  | .Forward => m.forward
  | .Backward => m.backward

/-- Modelled from the spec: `RenderSources<T>` is a Double-Buffered Grid,
two buffers indexed by Phase (spec section 3). -/
structure RenderSources (α : Type) where
  forward : α
  backward : α
  deriving DecidableEq

/-- Modelled from the spec: `RenderSources::new` builds the pair by
evaluating the closure at each direction. -/
def RenderSources.new {α : Type} (f : RenderDir → α) : RenderSources α :=
  ⟨f .Forward, f .Backward⟩

/-- The buffer playing the "source" role for the given phase: the
phase-indexed buffer (spec section 4.5: source = Phase buffer). -/
def RenderSources.src {α : Type} (s : RenderSources α) : RenderDir → α
  | .Forward => s.forward
  | .Backward => s.backward

/-- The buffer playing the "destination" role for the given phase: the other
buffer (spec section 4.5: destination = the other buffer). -/
def RenderSources.dst {α : Type} (s : RenderSources α) (dir : RenderDir) : α :=
  s.src dir.other

/-- The wgpu device, modelled as an allocator of fresh resource ids. -/
structure Device where
  nextId : Nat
  deriving DecidableEq

/-- Allocate a fresh id. -/
def Device.fresh (d : Device) : Nat × Device :=
  (d.nextId, ⟨d.nextId + 1⟩)

/-- Modulus of u32 arithmetic, 2^32. -/
def U32_MOD : Nat := 4294967296

/-- Wrapping u32 addition (release-mode Rust `+` on u32). -/
def u32_add (a b : Nat) : Nat := (a + b) % U32_MOD

/-- Wrapping u32 subtraction (release-mode Rust `-` on u32); both operands
are assumed already reduced below 2^32. -/
def u32_sub (a b : Nat) : Nat := (a + U32_MOD - b) % U32_MOD

/-- BindAccess from src/bindable.rs. -/
inductive BindAccess where
  | ReadOnly
  | ReadSampled
  | WriteOnly
  deriving DecidableEq

/-- BufferType from src/bindable.rs. -/
inductive BufferType where
  | Uniform
  | Storage
  deriving DecidableEq

/-- Shallow model of wgpu::BufferBindingType. -/
inductive BufferBindingType where
  | Storage (read_only : Bool)
  | Uniform
  deriving DecidableEq

/-- Shallow model of wgpu::StorageTextureAccess (the variants used). -/
inductive StorageTextureAccess where
  | ReadOnly
  | WriteOnly
  deriving DecidableEq

/-- Shallow model of wgpu::BindingType; texture formats, sample types and
view dimensions are carried as opaque numeric codes (D2 is code 2). -/
inductive BindingType where
  | Buffer (ty : BufferBindingType) (has_dynamic_offset : Bool)
      (min_binding_size : Option Nat)
  | StorageTexture (access : StorageTextureAccess) (format : Nat)
      (view_dimension : Nat)
  | Texture (sample_type : Nat) (view_dimension : Nat) (multisampled : Bool)
  | Sampler (comparison : Bool) (filtering : Bool)
  deriving DecidableEq

/-- Shallow model of wgpu::BindingResource: which handle is bound. -/
inductive BindingResource where
  | buffer (id : Nat)
  | textureView (id : Nat)
  | sampler (id : Nat)
  deriving DecidableEq

/-- Buffer from src/bindable.rs: a wgpu buffer handle (id), its byte size
and its usage kind.  Initialization contents, when the buffer was created
with `new_init`, are kept as the list of typed words handed to wgpu (the
source passes a byte slice; the embedding keeps word granularity). -/
structure Buffer where
  id : Nat
  size : Nat
  ty : BufferType
  contents : Option (List Nat)
  deriving DecidableEq

/-- Buffer::new from src/bindable.rs: allocate an uninitialized buffer of
the given byte size.  The diagnostic label string is passed to wgpu only
and is not part of the state. -/
def Buffer.new (device : Device) (ty : BufferType) (size : Nat) :
    Buffer × Device :=
  let (i, device) := device.fresh
  (⟨i, size, ty, none⟩, device)

/-- Buffer::new_init from src/bindable.rs: allocate a buffer initialized
with the given contents; `byteLen` is the length of the byte serialization
of `contents` (the source computes the size as `contents.len()` on the byte
slice). -/
def Buffer.new_init (device : Device) (ty : BufferType)
    (contents : List Nat) (byteLen : Nat) : Buffer × Device :=
  let (i, device) := device.fresh
  (⟨i, byteLen, ty, some contents⟩, device)

/-- Buffer::binding_resource from src/bindable.rs:
`self.buf.as_entire_binding()`. -/
def Buffer.binding_resource (b : Buffer) : BindingResource :=
  .buffer b.id

/-- Buffer::binding_type from src/bindable.rs.  Note the source maps
ReadSampled on a Storage buffer to `read_only: true`, the same as ReadOnly
(the XXX comment in the source flags this).  wgpu::BufferSize::new returns
None for size zero. -/
def Buffer.binding_type (b : Buffer) (access : BindAccess) : BindingType :=
  .Buffer
    (match b.ty with
      | .Storage => .Storage
          (match access with
            | .ReadOnly => true
            | .ReadSampled => true
            | .WriteOnly => false)
      | .Uniform => .Uniform)
    false
    (if b.size = 0 then none else some b.size)

/-- Buffer2D from src/bindable.rs: a Buffer plus dimensions, a label, and
an element type modelled by its byte size (`mem::size_of::<T>()`). -/
structure Buffer2D where
  buf : Buffer
  dim : Dimensions
  label : String
  elemSize : Nat
  deriving DecidableEq

/-- Buffer2D::new from src/bindable.rs: a Storage buffer of
`dim.area() * mem::size_of::<T>()` bytes. -/
def Buffer2D.new (device : Device) (label : String) (dim : Dimensions)
    (elemSize : Nat) : Buffer2D × Device :=
  let (b, device) := Buffer.new device .Storage (dim.area * elemSize)
  (⟨b, dim, label, elemSize⟩, device)

/-- Buffer2D::new_init from src/bindable.rs: asserts that the byte length
of the contents equals `dim.area() * mem::size_of::<T>()` before creating
the buffer; the assert panic is modelled as `none`. -/
def Buffer2D.new_init (device : Device) (label : String) (ty : BufferType)
    (dim : Dimensions) (contents : List Nat) (byteLen : Nat)
    (elemSize : Nat) : Option (Buffer2D × Device) :=
  if byteLen = dim.area * elemSize then
    let (b, device) := Buffer.new_init device ty contents byteLen
    some (⟨b, dim, label, elemSize⟩, device)
  else
    none

/-- Buffer2D::binding_resource delegates to the inner Buffer. -/
def Buffer2D.binding_resource (b : Buffer2D) : BindingResource :=
  b.buf.binding_resource

/-- Buffer2D::binding_type delegates to the inner Buffer. -/
def Buffer2D.binding_type (b : Buffer2D) (access : BindAccess) : BindingType :=
  b.buf.binding_type access

/-- A GPU command recorded on a command encoder; only buffer-to-buffer
copies are issued by the modelled code. -/
inductive GpuCommand where
  | copyBufferToBuffer (srcId : Nat) (srcOffset : Nat) (dstId : Nat)
      (dstOffset : Nat) (size : Nat)
  deriving DecidableEq

/-- Buffer2D::copyin_buf from src/bindable.rs: asserts equal dimensions
(`assert_eq!(src.dim(), self.dim())`) before recording the copy command;
the panic is modelled as `Except.error`, which carries no command. -/
def Buffer2D.copyin_buf (self src : Buffer2D) : Except String GpuCommand :=
  if src.dim = self.dim then
    .ok (.copyBufferToBuffer src.buf.id 0 self.buf.id 0
      (self.dim.area * self.elemSize))
  else
    .error ("assertion failed: src.dim() == self.dim()")

/-- Buffer2D::copyin_vec from src/bindable.rs: asserts
`data.len() == self.dim.area()` as its first statement, before the staging
buffer, the command encoder, or the copy command exist; the panic is
modelled as `Except.error`, which carries no command and leaves the device
allocator untouched. -/
def Buffer2D.copyin_vec (self : Buffer2D) (device : Device)
    (data : List Nat) : Except String (List GpuCommand × Device) :=
  if data.length = self.dim.area then
    let (import_buf, device) :=
      Buffer.new_init device .Storage data (data.length * self.elemSize)
    .ok ([.copyBufferToBuffer import_buf.id 0 self.buf.id 0
      (data.length * self.elemSize)], device)
  else
    .error ("assertion failed: data.len() == self.dim.area()")

/-- Texture from src/bindable.rs: a texture view handle and a format code. -/
structure Texture where
  texture_view : Nat
  format : Nat
  deriving DecidableEq

/-- Shallow model of wgpu::TextureFormat::describe().sample_type, an
external library mapping from the format; kept as an opaque code derived
from the format code. -/
def sampleTypeOf (format : Nat) : Nat := format

/-- Texture::binding_type from src/bindable.rs. -/
def Texture.binding_type (t : Texture) : BindAccess → BindingType
  | .ReadOnly => .StorageTexture .ReadOnly t.format 2
  | .ReadSampled => .Texture (sampleTypeOf t.format) 2 false
  | .WriteOnly => .StorageTexture .WriteOnly t.format 2

/-- Texture::binding_resource from src/bindable.rs. -/
def Texture.binding_resource (t : Texture) : BindingResource :=
  .textureView t.texture_view

/-- Sampler from src/bindable.rs: a sampler handle (address and filter
modes only configure the wgpu object and do not affect binding). -/
structure Sampler where
  sampler : Nat
  deriving DecidableEq

/-- Sampler::binding_type from src/bindable.rs: ignores the access mode. -/
def Sampler.binding_type (_ : Sampler) (_ : BindAccess) : BindingType :=
  .Sampler false true

/-- Sampler::binding_resource from src/bindable.rs. -/
def Sampler.binding_resource (s : Sampler) : BindingResource :=
  .sampler s.sampler

/-- The closed set of Bindable implementations in the source (Buffer,
Buffer2D, Texture, Sampler); trait-object dynamic dispatch is modelled as
a tagged variant (spec section 9 notes the kind set is closed). -/
inductive Resource where
  | buffer (b : Buffer)
  | buffer2D (b : Buffer2D)
  | texture (t : Texture)
  | sampler (s : Sampler)
  deriving DecidableEq

/-- Dispatch of Bindable::binding_type over the closed resource set. -/
def Resource.binding_type : Resource → BindAccess → BindingType
  | .buffer b, a => b.binding_type a
  | .buffer2D b, a => b.binding_type a
  | .texture t, a => t.binding_type a
  | .sampler s, a => s.binding_type a

/-- Dispatch of Bindable::binding_resource over the closed resource set. -/
def Resource.binding_resource : Resource → BindingResource
  | .buffer b => b.binding_resource
  | .buffer2D b => b.binding_resource
  | .texture t => t.binding_resource
  | .sampler s => s.binding_resource

/-- One entry of a wgpu::BindGroupLayoutDescriptor (visibility is always
COMPUTE and count always None in the source, so both are omitted). -/
structure BindGroupLayoutEntry where
  binding : Nat
  ty : BindingType
  deriving DecidableEq

/-- One entry of a wgpu::BindGroupDescriptor. -/
structure BindGroupEntry where
  binding : Nat
  resource : BindingResource
  deriving DecidableEq

/-- A compiled compute pipeline: the shader module handle, the entry point,
and the single bind group layout it was compiled against. -/
structure ComputePipeline where
  shader : Nat
  entry_point : String
  layout : List BindGroupLayoutEntry
  deriving DecidableEq

/-- The bind-group-layout entries Binder::bind_up builds:
`args.iter().enumerate()` mapped to entries with `binding: idx` and
`ty: arg.binding_type(access)`. -/
def Binder.layout_entries (args : List (BindAccess × Resource)) :
    List BindGroupLayoutEntry :=
  args.enum.map (fun p => ⟨p.1, p.2.2.binding_type p.2.1⟩)

/-- The bind-group entries Binder::bind_up builds:
`args.iter().enumerate()` mapped to entries with `binding: idx` and
`resource: arg.binding_resource()`. -/
def Binder.group_entries (args : List (BindAccess × Resource)) :
    List BindGroupEntry :=
  args.enum.map (fun p => ⟨p.1, p.2.2.binding_resource⟩)

/-- Binder::bind_up from src/bindable.rs: builds the layout and bind group
from the ordered argument list and compiles one pipeline against that
layout. -/
def Binder.bind_up (shader : Nat) (entry_point : String)
    (args : List (BindAccess × Resource)) :
    ComputePipeline × List BindGroupEntry :=
  (⟨shader, entry_point, Binder.layout_entries args⟩,
   Binder.group_entries args)

/-- An observable event inside Binder::bind_up_dir: an evaluation of the
caller-supplied direction-to-arguments closure, or the compilation of the
compute pipeline. -/
inductive BindEvent where
  | evalArgs (dir : RenderDir)
  | compilePipeline
  deriving DecidableEq

/-- State monad accumulating the event log of a bind_up_dir run. -/
abbrev TraceM := StateM (List BindEvent)

/-- Append one event to the log. -/
def traceEvent (e : BindEvent) : TraceM Unit :=
  fun log => ((), log ++ [e])

/-- Modelled from the spec: `RenderMotion::new` builds the two-entry table
by evaluating the closure at each direction, Forward then Backward (spec
sections 4.2 and 9); this is its effectful form, used so that the number of
closure evaluations is observable in the log. -/
def RenderMotion.newM {α : Type} (f : RenderDir → TraceM α) :
    TraceM (RenderMotion α) := do
  let fw ← f .Forward
  let bw ← f .Backward
  pure ⟨fw, bw⟩

/-- Binder::bind_up_dir from src/bindable.rs: builds the bind group layout
from `args(RenderDir::Forward)`, builds one bind group per direction via
`RenderMotion::new(|dir| ...)` re-evaluating `args(dir)`, and compiles a
single pipeline against the layout.  Every evaluation of `args` and the
pipeline compilation are logged. -/
def Binder.bind_up_dir (shader : Nat) (entry_point : String)
    (args : RenderDir → List (BindAccess × Resource)) :
    TraceM (ComputePipeline × RenderMotion (List BindGroupEntry)) := do
  let callArgs := fun (dir : RenderDir) => do
    traceEvent (.evalArgs dir)
    pure (args dir)
  let fwdArgs ← callArgs .Forward
  let layout := Binder.layout_entries fwdArgs
  let bind_groups ← RenderMotion.newM (fun dir => do
    let a ← callArgs dir
    pure (Binder.group_entries a))
  traceEvent .compilePipeline
  pure (⟨shader, entry_point, layout⟩, bind_groups)

/-- WORKGROUP_SIZE, the fixed 8x8 compute tile, declared identically in
src/buffer_copy.rs and src/life.rs (Rust tuple field .0 is `.1` here, .1 is
`.2`). -/
def WORKGROUP_SIZE : Nat × Nat := (8, 8)

/-- CopyParams from src/buffer_copy.rs: the repr(C) parameter record of the
resizing copy kernel, eight u32 fields in declaration order. -/
structure CopyParams where
  odx : Nat
  ody : Nat
  ndx : Nat
  ndy : Nat
  owidth : Nat
  nwidth : Nat
  width : Nat
  height : Nat
  deriving DecidableEq

/-- The serialization bytemuck::bytes_of produces for a repr(C) CopyParams:
the eight u32 fields as consecutive words, in declaration order (modelled
at 32-bit word granularity). -/
def CopyParams.toWords (p : CopyParams) : List Nat :=
  [p.odx, p.ody, p.ndx, p.ndy, p.owidth, p.nwidth, p.width, p.height]

/-- BufferCopier from src/buffer_copy.rs: holds the compiled copy shader
module (the type-pair specialization only rewrites the shader text). -/
structure BufferCopier where
  shader : Nat
  deriving DecidableEq

/-- BufferCopier::new from src/buffer_copy.rs: compiles the specialized
shader module. -/
def BufferCopier.new (device : Device) : BufferCopier × Device :=
  let (i, device) := device.fresh
  (⟨i⟩, device)

/-- BufferCopier::copy_params from src/buffer_copy.rs, translated
clause by clause from the source (Nat subtraction is only taken in the
guarded branch, where it agrees with u32 subtraction). -/
def BufferCopier.copy_params (src_buf dst_buf : Buffer2D) : CopyParams :=
  let ow := src_buf.dim.width
  let oh := src_buf.dim.height
  let nw := dst_buf.dim.width
  let nh := dst_buf.dim.height
  { odx := if nw < ow then (ow - nw) / 2 else 0
    ndx := if nw > ow then (nw - ow) / 2 else 0
    ody := if nh < oh then (oh - nh) / 2 else 0
    ndy := if nh > oh then (nh - oh) / 2 else 0
    owidth := ow
    nwidth := nw
    width := Nat.min ow nw
    height := Nat.min oh nh }

/-- A compute dispatch, as passed to wgpu dispatch(x, y, z). -/
structure Dispatch where
  x : Nat
  y : Nat
  z : Nat
  deriving DecidableEq

/-- Everything one BufferCopier::copy call sets up and enqueues: the
derived parameters, the bound argument list, the pipeline and bind group
built by Binder::bind_up, and the dispatch size. -/
structure CopyInvocation where
  params : CopyParams
  args : List (BindAccess × Resource)
  pipeline : ComputePipeline
  bind_group : List BindGroupEntry
  dispatch : Dispatch
  deriving DecidableEq

/-- BufferCopier::copy from src/buffer_copy.rs: derives the parameters,
creates a Uniform buffer holding them, binds (params read-only, source
read-only, destination write-only) via Binder::bind_up, and dispatches
ceil-division work groups over the overlap (u32 arithmetic,
`(w + WORKGROUP_SIZE - 1) / WORKGROUP_SIZE`).  The wasm32-only workaround
branch is compiled out on the native target and is not modelled. -/
def BufferCopier.copy (bc : BufferCopier) (device : Device)
    (src_buf dst_buf : Buffer2D) : CopyInvocation × Device :=
  let params := BufferCopier.copy_params src_buf dst_buf
  let (param_buf, device) :=
    Buffer.new_init device .Uniform params.toWords (4 * params.toWords.length)
  let args : List (BindAccess × Resource) :=
    [(.ReadOnly, .buffer param_buf),
     (.ReadOnly, .buffer2D src_buf),
     (.WriteOnly, .buffer2D dst_buf)]
  let (pipeline, bind_group) := Binder.bind_up bc.shader ("copy") args
  let dispatch : Dispatch :=
    ⟨u32_sub (u32_add params.width WORKGROUP_SIZE.1) 1 / WORKGROUP_SIZE.1,
     u32_sub (u32_add params.height WORKGROUP_SIZE.2) 1 / WORKGROUP_SIZE.2,
     1⟩
  (⟨params, args, pipeline, bind_group, dispatch⟩, device)

/-- DebugBuffer from src/debug_buffer.rs: wraps a Buffer2D labelled
"debug buffer". -/
structure DebugBuffer where
  buf : Buffer2D
  deriving DecidableEq

/-- DebugBuffer::new from src/debug_buffer.rs. -/
def DebugBuffer.new (device : Device) (dim : Dimensions) (elemSize : Nat) :
    DebugBuffer × Device :=
  let (b, device) := Buffer2D.new device ("debug buffer") dim elemSize
  (⟨b⟩, device)

/-- Modelled from the spec: device-threaded form of `RenderSources::new`,
needed because the closure allocates a buffer per direction (Forward then
Backward). -/
def RenderSources.newD {α : Type} (device : Device)
    (f : RenderDir → Device → α × Device) : RenderSources α × Device :=
  let (fw, device) := f .Forward device
  let (bw, device) := f .Backward device
  (⟨fw, bw⟩, device)

/-- Modelled from the spec: device-threaded form of `RenderDir::iterate`,
which applies a closure to each of the two directions (Forward then
Backward). -/
def RenderDir.iterateD {α : Type} (device : Device)
    (f : RenderDir → Device → α × Device) : List α × Device :=
  let (a, device) := f .Forward device
  let (b, device) := f .Backward device
  ([a, b], device)

/-- Life from src/life.rs: the double-buffered simulation driver.  The
cell buffers hold f32 cells (element size 4); the random buffer holds
[u32; 4] cells (element size 16). -/
structure Life where
  shader : Nat
  pipeline : ComputePipeline
  bind_groups : RenderMotion (List BindGroupEntry)
  dimensions : Dimensions
  cell_buffers : RenderSources Buffer2D
  random_buf : Buffer2D
  cell_bc : BufferCopier
  rand_bc : BufferCopier
  debug_buffer : DebugBuffer
  frame_num : Nat
  deriving DecidableEq

/-- The argument list Life binds for each direction, from src/life.rs
(both in Life::new and Life::resize): params read-only, source cell buffer
read-only, destination cell buffer write-only, random buffer write-only,
output texture write-only. -/
def Life.bindArgs (params texture : Resource)
    (cell_buffers : RenderSources Buffer2D) (random_buf : Buffer2D)
    (dir : RenderDir) : List (BindAccess × Resource) :=
  [(.ReadOnly, params),
   (.ReadOnly, .buffer2D (cell_buffers.src dir)),
   (.WriteOnly, .buffer2D (cell_buffers.dst dir)),
   (.WriteOnly, .buffer2D random_buf),
   (.WriteOnly, texture)]

/-- Life::new from src/life.rs.  The injected `rng` stands for the random
source sampled once per generated u32 word; the random data has
`4 * dimensions.area()` words ([u32; 4] per cell).  Buffer2D::new_init can
panic on a size mismatch, so the result is an Option (the mismatch never
happens; see the phase theorem). -/
def Life.new (device : Device) (dimensions : Dimensions)
    (params texture : Resource) (rng : Nat → Nat) :
    Option (Life × Device) :=
  let (shader, device) := device.fresh
  let (cell_buffers, device) := RenderSources.newD device
    (fun dir d => Buffer2D.new d ("Source for " ++ dir.describe) dimensions 4)
  let random_data : List Nat := (List.range (4 * dimensions.area)).map rng
  match Buffer2D.new_init device ("random data") .Storage dimensions
      random_data (4 * random_data.length) 16 with
  | none => none
  | some (random_buf, device) =>
    let (debug_buffer, device) := DebugBuffer.new device dimensions 4
    let (cell_bc, device) := BufferCopier.new device
    let (rand_bc, device) := BufferCopier.new device
    let ((pipeline, bind_groups), _) :=
      (Binder.bind_up_dir shader ("life")
        (Life.bindArgs params texture cell_buffers random_buf)).run []
    some ({ shader := shader, pipeline := pipeline,
            bind_groups := bind_groups, dimensions := dimensions,
            cell_buffers := cell_buffers, random_buf := random_buf,
            cell_bc := cell_bc, rand_bc := rand_bc,
            debug_buffer := debug_buffer, frame_num := 0 }, device)

/-- Life::dir from src/life.rs: `RenderDir::dir(self.frame_num)`. -/
def Life.dir (l : Life) : RenderDir :=
  RenderDir.dir l.frame_num

/-- Life::src_buf from src/life.rs. -/
def Life.src_buf (l : Life) : Buffer2D :=
  l.cell_buffers.src l.dir

/-- The compute pass one Life::step records: the pipeline, the bind group
selected for the current direction, and the dispatch size. -/
structure StepPass where
  pipeline : ComputePipeline
  bind_group : List BindGroupEntry
  dispatch : Dispatch
  deriving DecidableEq

/-- Life::step from src/life.rs: dispatches
`ceil(width/8) x ceil(height/8)` work groups (u32 arithmetic) using the
bind group for the current direction, then increments `frame_num` by one.
The `debug` flag is the constant false in the source, so the debug copy
branch is dead and not modelled. -/
def Life.step (l : Life) : Life × StepPass :=
  let xdim := u32_sub (u32_add l.dimensions.width WORKGROUP_SIZE.1) 1
  let xgroups := xdim / WORKGROUP_SIZE.1
  let ydim := u32_sub (u32_add l.dimensions.height WORKGROUP_SIZE.2) 1
  let ygroups := ydim / WORKGROUP_SIZE.2
  let pass : StepPass :=
    ⟨l.pipeline, l.bind_groups.get l.dir, ⟨xgroups, ygroups, 1⟩⟩
  ({ l with frame_num := l.frame_num + 1 }, pass)

/-- Iterated Life::step, keeping only the driver state. -/
def Life.stepN (l : Life) : Nat → Life
  | 0 => l
  | n + 1 => ((l.stepN n).step).1

/-- Life::resize from src/life.rs: allocates new cell buffers, migrates
each direction's source buffer through the cell BufferCopier, allocates
and migrates a new random buffer, rebuilds pipeline and bind groups via
Binder::bind_up_dir over the new buffers, allocates a new debug buffer,
and assigns exactly the fields pipeline, bind_groups, dimensions,
cell_buffers, random_buf and debug_buffer.  Returns the new state, the
device, and the copy-kernel invocations it enqueued. -/
def Life.resize (l : Life) (device : Device) (dimensions : Dimensions)
    (params texture : Resource) : Life × Device × List CopyInvocation :=
  let (cell_buffers, device) := RenderSources.newD device
    (fun dir d => Buffer2D.new d ("Source for " ++ dir.describe) dimensions 4)
  let (cellCopies, device) := RenderDir.iterateD device
    (fun dir d =>
      l.cell_bc.copy d (l.cell_buffers.src dir) (cell_buffers.src dir))
  let (random_buf, device) := Buffer2D.new device ("random data") dimensions 16
  let (randCopy, device) := l.rand_bc.copy device l.random_buf random_buf
  let ((pipeline, bind_groups), _) :=
    (Binder.bind_up_dir l.shader ("life")
      (Life.bindArgs params texture cell_buffers random_buf)).run []
  let (debug_buffer, device) := DebugBuffer.new device dimensions 4
  ({ l with pipeline := pipeline, bind_groups := bind_groups,
            dimensions := dimensions, cell_buffers := cell_buffers,
            random_buf := random_buf, debug_buffer := debug_buffer },
   device, cellCopies ++ [randCopy])

/-- Helper for the resize-offset claims: the guarded Nat expression the
source computes equals max(0, (a-b)/2) over the integers with division
truncating toward zero (Int.tdiv). -/
lemma offset_if_eq_max_tdiv (a b : Nat) :
    (((if b < a then (a - b) / 2 else 0 : Nat)) : Int)
      = max 0 (Int.tdiv ((a : Int) - (b : Int)) 2) := by
  rcases lt_or_ge b a with h | h
  · rw [if_pos h]
    have h1 : ((a : Int) - b) = ((a - b : Nat) : Int) := by omega
    have h2 : Int.tdiv ((a - b : Nat) : Int) (2 : Int)
        = (((a - b) / 2 : Nat) : Int) := rfl
    rw [h1, h2, max_eq_right (by positivity)]
  · rw [if_neg (not_lt.mpr h)]
    have h1 : ((a : Int) - b) = -((b - a : Nat) : Int) := by omega
    have h2 : Int.tdiv (-((b - a : Nat) : Int)) (2 : Int)
        = -(((b - a) / 2 : Nat) : Int) := by
      rw [Int.neg_tdiv]; rfl
    rw [h1, h2, max_eq_left (by omega)]
    simp

/-- C1: for all old dimensions (W,H) and new dimensions (W',H'), the resize
copy parameters satisfy overlapWidth = min(W,W'), overlapHeight = min(H,H'),
oldOffsetX = max(0,(W-W')/2), newOffsetX = max(0,(W'-W)/2), and symmetrically
for Y, with integer division truncating toward zero. -/
theorem copy_params_spec (src_buf dst_buf : Buffer2D) :
    (BufferCopier.copy_params src_buf dst_buf).width
        = Nat.min src_buf.dim.width dst_buf.dim.width ∧
    (BufferCopier.copy_params src_buf dst_buf).height
        = Nat.min src_buf.dim.height dst_buf.dim.height ∧
    ((BufferCopier.copy_params src_buf dst_buf).odx : Int)
        = max 0 (Int.tdiv ((src_buf.dim.width : Int) - dst_buf.dim.width) 2) ∧
    ((BufferCopier.copy_params src_buf dst_buf).ndx : Int)
        = max 0 (Int.tdiv ((dst_buf.dim.width : Int) - src_buf.dim.width) 2) ∧
    ((BufferCopier.copy_params src_buf dst_buf).ody : Int)
        = max 0 (Int.tdiv ((src_buf.dim.height : Int) - dst_buf.dim.height) 2) ∧
    ((BufferCopier.copy_params src_buf dst_buf).ndy : Int)
        = max 0 (Int.tdiv ((dst_buf.dim.height : Int) - src_buf.dim.height) 2) := by
  refine ⟨rfl, rfl, ?_, ?_, ?_, ?_⟩
  · exact offset_if_eq_max_tdiv src_buf.dim.width dst_buf.dim.width
  · exact offset_if_eq_max_tdiv dst_buf.dim.width src_buf.dim.width
  · exact offset_if_eq_max_tdiv src_buf.dim.height dst_buf.dim.height
  · exact offset_if_eq_max_tdiv dst_buf.dim.height src_buf.dim.height

/-- C3: for a plain linear buffer created as Storage, binding_type returns
the identical binding-type descriptor for ReadSampled as for ReadOnly: the
source aliases ReadSampled to ReadOnly on plain buffers instead of
rejecting it. -/
theorem buffer_read_sampled_aliases_read_only (i size : Nat)
    (c : Option (List Nat)) :
    Buffer.binding_type ⟨i, size, .Storage, c⟩ .ReadSampled
      = Buffer.binding_type ⟨i, size, .Storage, c⟩ .ReadOnly := rfl

/-- Helper for the dispatch claims: the u32 expression
`(w + 8 - 1) / 8` equals `(w + 7) / 8` whenever the addition does not
overflow past 2^32. -/
lemma u32_ceil_groups_eq (w : Nat) (h : w + 7 < U32_MOD) :
    u32_sub (u32_add w 8) 1 / 8 = (w + 7) / 8 := by
  unfold u32_sub u32_add U32_MOD at *
  omega

/-- C5: the resizing copy kernel dispatches ceil(overlapWidth/8) times
ceil(overlapHeight/8) workgroups, computed as (w+7)/8 over exact unsigned
arithmetic (the hypotheses rule out u32 wrap-around, which cannot occur
for the dimensions of an allocatable buffer); the ceiling property is
stated by the standard bounds, and a zero overlap dimension dispatches
zero tiles. -/
theorem copy_dispatch_ceil (bc : BufferCopier) (device : Device)
    (src_buf dst_buf : Buffer2D)
    (hw : (BufferCopier.copy_params src_buf dst_buf).width + 7 < U32_MOD)
    (hh : (BufferCopier.copy_params src_buf dst_buf).height + 7 < U32_MOD) :
    ((bc.copy device src_buf dst_buf).1.dispatch.x
        = ((bc.copy device src_buf dst_buf).1.params.width + 7) / 8) ∧
    ((bc.copy device src_buf dst_buf).1.dispatch.y
        = ((bc.copy device src_buf dst_buf).1.params.height + 7) / 8) ∧
    ((bc.copy device src_buf dst_buf).1.params.width
        ≤ 8 * (bc.copy device src_buf dst_buf).1.dispatch.x) ∧
    (8 * (bc.copy device src_buf dst_buf).1.dispatch.x
        < (bc.copy device src_buf dst_buf).1.params.width + 8) ∧
    ((bc.copy device src_buf dst_buf).1.params.height
        ≤ 8 * (bc.copy device src_buf dst_buf).1.dispatch.y) ∧
    (8 * (bc.copy device src_buf dst_buf).1.dispatch.y
        < (bc.copy device src_buf dst_buf).1.params.height + 8) ∧
    ((bc.copy device src_buf dst_buf).1.params.width = 0 ∨
     (bc.copy device src_buf dst_buf).1.params.height = 0 →
      (bc.copy device src_buf dst_buf).1.dispatch.x
        * (bc.copy device src_buf dst_buf).1.dispatch.y = 0) := by
  have hx : (bc.copy device src_buf dst_buf).1.dispatch.x
      = u32_sub (u32_add (BufferCopier.copy_params src_buf dst_buf).width 8) 1
          / 8 := rfl
  have hy : (bc.copy device src_buf dst_buf).1.dispatch.y
      = u32_sub (u32_add (BufferCopier.copy_params src_buf dst_buf).height 8) 1
          / 8 := rfl
  have hp : (bc.copy device src_buf dst_buf).1.params
      = BufferCopier.copy_params src_buf dst_buf := rfl
  rw [hx, hy, hp, u32_ceil_groups_eq _ hw, u32_ceil_groups_eq _ hh]
  refine ⟨rfl, rfl, by omega, by omega, by omega, by omega, ?_⟩
  rintro (h0 | h0) <;> rw [h0] <;> simp

/-- Witness for C5 at a concrete input: source 12x0, destination 20x5, so
the overlap is 12x0 and the dispatch is 2x0 tiles, a no-op. -/
theorem copy_dispatch_ceil_witness :
    ((BufferCopier.copy ⟨0⟩ ⟨1⟩
        ⟨⟨2, 0, .Storage, none⟩, ⟨12, 0⟩, ("s"), 4⟩
        ⟨⟨3, 400, .Storage, none⟩, ⟨20, 5⟩, ("d"), 4⟩).1.dispatch.x
        = ((BufferCopier.copy ⟨0⟩ ⟨1⟩
            ⟨⟨2, 0, .Storage, none⟩, ⟨12, 0⟩, ("s"), 4⟩
            ⟨⟨3, 400, .Storage, none⟩, ⟨20, 5⟩, ("d"), 4⟩).1.params.width + 7) / 8) ∧
    ((BufferCopier.copy ⟨0⟩ ⟨1⟩
        ⟨⟨2, 0, .Storage, none⟩, ⟨12, 0⟩, ("s"), 4⟩
        ⟨⟨3, 400, .Storage, none⟩, ⟨20, 5⟩, ("d"), 4⟩).1.dispatch.y
        = ((BufferCopier.copy ⟨0⟩ ⟨1⟩
            ⟨⟨2, 0, .Storage, none⟩, ⟨12, 0⟩, ("s"), 4⟩
            ⟨⟨3, 400, .Storage, none⟩, ⟨20, 5⟩, ("d"), 4⟩).1.params.height + 7) / 8) ∧
    ((BufferCopier.copy ⟨0⟩ ⟨1⟩
        ⟨⟨2, 0, .Storage, none⟩, ⟨12, 0⟩, ("s"), 4⟩
        ⟨⟨3, 400, .Storage, none⟩, ⟨20, 5⟩, ("d"), 4⟩).1.params.width
        ≤ 8 * (BufferCopier.copy ⟨0⟩ ⟨1⟩
            ⟨⟨2, 0, .Storage, none⟩, ⟨12, 0⟩, ("s"), 4⟩
            ⟨⟨3, 400, .Storage, none⟩, ⟨20, 5⟩, ("d"), 4⟩).1.dispatch.x) ∧
    (8 * (BufferCopier.copy ⟨0⟩ ⟨1⟩
        ⟨⟨2, 0, .Storage, none⟩, ⟨12, 0⟩, ("s"), 4⟩
        ⟨⟨3, 400, .Storage, none⟩, ⟨20, 5⟩, ("d"), 4⟩).1.dispatch.x
        < (BufferCopier.copy ⟨0⟩ ⟨1⟩
            ⟨⟨2, 0, .Storage, none⟩, ⟨12, 0⟩, ("s"), 4⟩
            ⟨⟨3, 400, .Storage, none⟩, ⟨20, 5⟩, ("d"), 4⟩).1.params.width + 8) ∧
    ((BufferCopier.copy ⟨0⟩ ⟨1⟩
        ⟨⟨2, 0, .Storage, none⟩, ⟨12, 0⟩, ("s"), 4⟩
        ⟨⟨3, 400, .Storage, none⟩, ⟨20, 5⟩, ("d"), 4⟩).1.params.height
        ≤ 8 * (BufferCopier.copy ⟨0⟩ ⟨1⟩
            ⟨⟨2, 0, .Storage, none⟩, ⟨12, 0⟩, ("s"), 4⟩
            ⟨⟨3, 400, .Storage, none⟩, ⟨20, 5⟩, ("d"), 4⟩).1.dispatch.y) ∧
    (8 * (BufferCopier.copy ⟨0⟩ ⟨1⟩
        ⟨⟨2, 0, .Storage, none⟩, ⟨12, 0⟩, ("s"), 4⟩
        ⟨⟨3, 400, .Storage, none⟩, ⟨20, 5⟩, ("d"), 4⟩).1.dispatch.y
        < (BufferCopier.copy ⟨0⟩ ⟨1⟩
            ⟨⟨2, 0, .Storage, none⟩, ⟨12, 0⟩, ("s"), 4⟩
            ⟨⟨3, 400, .Storage, none⟩, ⟨20, 5⟩, ("d"), 4⟩).1.params.height + 8) ∧
    ((BufferCopier.copy ⟨0⟩ ⟨1⟩
        ⟨⟨2, 0, .Storage, none⟩, ⟨12, 0⟩, ("s"), 4⟩
        ⟨⟨3, 400, .Storage, none⟩, ⟨20, 5⟩, ("d"), 4⟩).1.params.width = 0 ∨
     (BufferCopier.copy ⟨0⟩ ⟨1⟩
        ⟨⟨2, 0, .Storage, none⟩, ⟨12, 0⟩, ("s"), 4⟩
        ⟨⟨3, 400, .Storage, none⟩, ⟨20, 5⟩, ("d"), 4⟩).1.params.height = 0 →
      (BufferCopier.copy ⟨0⟩ ⟨1⟩
        ⟨⟨2, 0, .Storage, none⟩, ⟨12, 0⟩, ("s"), 4⟩
        ⟨⟨3, 400, .Storage, none⟩, ⟨20, 5⟩, ("d"), 4⟩).1.dispatch.x
        * (BufferCopier.copy ⟨0⟩ ⟨1⟩
            ⟨⟨2, 0, .Storage, none⟩, ⟨12, 0⟩, ("s"), 4⟩
            ⟨⟨3, 400, .Storage, none⟩, ⟨20, 5⟩, ("d"), 4⟩).1.dispatch.y = 0) :=
  copy_dispatch_ceil ⟨0⟩ ⟨1⟩
    ⟨⟨2, 0, .Storage, none⟩, ⟨12, 0⟩, ("s"), 4⟩
    ⟨⟨3, 400, .Storage, none⟩, ⟨20, 5⟩, ("d"), 4⟩
    (by decide) (by decide)

/-- C2: step() increments the step counter by exactly one; the driver's
phase is derived from the counter alone (dir is literally RenderDir.dir of
frame_num, and is never stored); a freshly constructed driver has counter
0; and after N steps the counter is N and the reported phase is N mod 2. -/
theorem life_phase (l : Life) (n : Nat) (device : Device)
    (dimensions : Dimensions) (params texture : Resource) (rng : Nat → Nat) :
    ((l.step).1.frame_num = l.frame_num + 1) ∧
    (l.dir = RenderDir.dir l.frame_num) ∧
    ((RenderDir.dir n).toNat = n % 2) ∧
    ((l.stepN n).frame_num = l.frame_num + n) ∧
    ((l.stepN n).dir = RenderDir.dir (l.frame_num + n)) ∧
    ((Life.new device dimensions params texture rng).map
        (fun p => p.1.frame_num) = some 0) := by
  have hcount : ∀ m : Nat, (l.stepN m).frame_num = l.frame_num + m := by
    intro m
    induction m with
    | zero => rfl
    | succ k ih =>
      have hs : (l.stepN (k + 1)).frame_num = (l.stepN k).frame_num + 1 := rfl
      rw [hs, ih]
      omega
  refine ⟨rfl, rfl, ?_, hcount n, ?_, ?_⟩
  · by_cases h : n % 2 = 0
    · simp [RenderDir.dir, RenderDir.toNat, h]
    · simp only [RenderDir.dir, if_neg h, RenderDir.toNat]
      omega
  · show RenderDir.dir (l.stepN n).frame_num = RenderDir.dir (l.frame_num + n)
    rw [hcount n]
  · have hc : 4 * ((List.range (4 * dimensions.area)).map rng).length
        = dimensions.area * 16 := by
      simp
      ring
    unfold Life.new Buffer2D.new_init
    simp only [if_pos hc]
    rfl

/-- C9: resize leaves the driver's step counter, and hence its phase,
unchanged; the shader module and the two buffer copiers are also kept; the
replaced components (dimensions, cell buffers, random buffer, debug
buffer) all take the new dimension. -/
theorem resize_preserves_step_counter (l : Life) (device : Device)
    (dimensions : Dimensions) (params texture : Resource) :
    ((l.resize device dimensions params texture).1.frame_num = l.frame_num) ∧
    ((l.resize device dimensions params texture).1.dir = l.dir) ∧
    ((l.resize device dimensions params texture).1.shader = l.shader) ∧
    ((l.resize device dimensions params texture).1.cell_bc = l.cell_bc) ∧
    ((l.resize device dimensions params texture).1.rand_bc = l.rand_bc) ∧
    ((l.resize device dimensions params texture).1.dimensions = dimensions) ∧
    ((l.resize device dimensions params texture).1.cell_buffers.forward.dim
        = dimensions) ∧
    ((l.resize device dimensions params texture).1.cell_buffers.backward.dim
        = dimensions) ∧
    ((l.resize device dimensions params texture).1.random_buf.dim
        = dimensions) ∧
    ((l.resize device dimensions params texture).1.debug_buffer.buf.dim
        = dimensions) :=
  ⟨rfl, rfl, rfl, rfl, rfl, rfl, rfl, rfl, rfl, rfl⟩

/-- C6: the static binder assigns binding index i to the resource at list
position i, both in the binding layout and in the binding set, for every
position; reordering the input therefore reorders the bindings
identically. -/
theorem bind_up_slots (shader : Nat) (entry_point : String)
    (args : List (BindAccess × Resource)) (i : Nat)
    (h1 : i < (Binder.layout_entries args).length)
    (h2 : i < (Binder.group_entries args).length)
    (h3 : i < args.length) :
    ((Binder.bind_up shader entry_point args).1.layout
        = Binder.layout_entries args) ∧
    ((Binder.bind_up shader entry_point args).2
        = Binder.group_entries args) ∧
    ((Binder.layout_entries args).length = args.length) ∧
    ((Binder.group_entries args).length = args.length) ∧
    ((Binder.layout_entries args).get ⟨i, h1⟩
        = ⟨i, (args.get ⟨i, h3⟩).2.binding_type (args.get ⟨i, h3⟩).1⟩) ∧
    ((Binder.group_entries args).get ⟨i, h2⟩
        = ⟨i, (args.get ⟨i, h3⟩).2.binding_resource⟩) := by
  refine ⟨rfl, rfl, by simp [Binder.layout_entries],
    by simp [Binder.group_entries], ?_, ?_⟩
  · simp [Binder.layout_entries, List.get_eq_getElem, List.getElem_map,
      List.getElem_enum]
  · simp [Binder.group_entries, List.get_eq_getElem, List.getElem_map,
      List.getElem_enum]

/-- Witness for C6 at a concrete two-element argument list and i = 1. -/
theorem bind_up_slots_witness :
    ((Binder.bind_up 0 ("life")
        [(.ReadOnly, .sampler ⟨5⟩), (.WriteOnly, .texture ⟨6, 3⟩)]).1.layout
        = Binder.layout_entries
            [(.ReadOnly, .sampler ⟨5⟩), (.WriteOnly, .texture ⟨6, 3⟩)]) ∧
    ((Binder.bind_up 0 ("life")
        [(.ReadOnly, .sampler ⟨5⟩), (.WriteOnly, .texture ⟨6, 3⟩)]).2
        = Binder.group_entries
            [(.ReadOnly, .sampler ⟨5⟩), (.WriteOnly, .texture ⟨6, 3⟩)]) ∧
    ((Binder.layout_entries
        [(.ReadOnly, .sampler ⟨5⟩), (.WriteOnly, .texture ⟨6, 3⟩)]).length
        = (([(.ReadOnly, .sampler ⟨5⟩), (.WriteOnly, .texture ⟨6, 3⟩)] :
            List (BindAccess × Resource))).length) ∧
    ((Binder.group_entries
        [(.ReadOnly, .sampler ⟨5⟩), (.WriteOnly, .texture ⟨6, 3⟩)]).length
        = (([(.ReadOnly, .sampler ⟨5⟩), (.WriteOnly, .texture ⟨6, 3⟩)] :
            List (BindAccess × Resource))).length) ∧
    ((Binder.layout_entries
        [(.ReadOnly, .sampler ⟨5⟩), (.WriteOnly, .texture ⟨6, 3⟩)]).get
          ⟨1, by decide⟩
        = ⟨1, ((([(.ReadOnly, .sampler ⟨5⟩), (.WriteOnly, .texture ⟨6, 3⟩)] :
              List (BindAccess × Resource))).get ⟨1, by decide⟩).2.binding_type
            ((([(.ReadOnly, .sampler ⟨5⟩), (.WriteOnly, .texture ⟨6, 3⟩)] :
              List (BindAccess × Resource))).get ⟨1, by decide⟩).1⟩) ∧
    ((Binder.group_entries
        [(.ReadOnly, .sampler ⟨5⟩), (.WriteOnly, .texture ⟨6, 3⟩)]).get
          ⟨1, by decide⟩
        = ⟨1, ((([(.ReadOnly, .sampler ⟨5⟩), (.WriteOnly, .texture ⟨6, 3⟩)] :
              List (BindAccess × Resource))).get ⟨1, by decide⟩).2.binding_resource⟩) :=
  bind_up_slots 0 ("life")
    [(.ReadOnly, .sampler ⟨5⟩), (.WriteOnly, .texture ⟨6, 3⟩)] 1
    (by decide) (by decide) (by decide)

/-- C7: the copy kernel's slot 0 holds the parameter record, a uniform
buffer whose contents are the eight u32 fields in the exact order
oldOffsetX, oldOffsetY, newOffsetX, newOffsetY, oldWidth, newWidth,
overlapWidth, overlapHeight; slot 1 is the source buffer bound read-only
and slot 2 the destination buffer bound write-only; the bind group and
layout assign exactly slots 0, 1, 2 in that order. -/
theorem copy_binding_contract (bc : BufferCopier) (device : Device)
    (src_buf dst_buf : Buffer2D) :
    ((bc.copy device src_buf dst_buf).1.params.toWords
        = [(bc.copy device src_buf dst_buf).1.params.odx,
           (bc.copy device src_buf dst_buf).1.params.ody,
           (bc.copy device src_buf dst_buf).1.params.ndx,
           (bc.copy device src_buf dst_buf).1.params.ndy,
           (bc.copy device src_buf dst_buf).1.params.owidth,
           (bc.copy device src_buf dst_buf).1.params.nwidth,
           (bc.copy device src_buf dst_buf).1.params.width,
           (bc.copy device src_buf dst_buf).1.params.height]) ∧
    ((bc.copy device src_buf dst_buf).1.params.toWords.length = 8) ∧
    ((bc.copy device src_buf dst_buf).1.args
        = [(.ReadOnly, .buffer ⟨device.nextId, 32, .Uniform,
              some (bc.copy device src_buf dst_buf).1.params.toWords⟩),
           (.ReadOnly, .buffer2D src_buf),
           (.WriteOnly, .buffer2D dst_buf)]) ∧
    ((bc.copy device src_buf dst_buf).1.bind_group
        = [⟨0, .buffer device.nextId⟩,
           ⟨1, src_buf.binding_resource⟩,
           ⟨2, dst_buf.binding_resource⟩]) ∧
    ((bc.copy device src_buf dst_buf).1.pipeline.layout.map
        (fun e => e.binding) = [0, 1, 2]) :=
  ⟨rfl, rfl, rfl, rfl, rfl⟩

/-- C4 counterexample: on a concrete mapping, the direction-indexed binder
evaluates the caller-supplied function twice for Forward (once for the
binding layout and once for the Forward binding set), so it is not
evaluated exactly once per Phase value as the claim states. -/
theorem bind_up_dir_forward_eval_count :
    List.count (BindEvent.evalArgs RenderDir.Forward)
        (((Binder.bind_up_dir 0 ("life")
          (fun _ => ([] : List (BindAccess × Resource)))).run []).2) = 2 ∧
    List.count (BindEvent.evalArgs RenderDir.Forward)
        (((Binder.bind_up_dir 0 ("life")
          (fun _ => ([] : List (BindAccess × Resource)))).run []).2) ≠ 1 := by
  constructor
  · rfl
  · decide

/-- C4 amended: the direction-indexed binder evaluates the caller-supplied
mapping eagerly at bind time, twice for Forward (layout plus Forward
binding set) and once for Backward, produces the fixed two-entry table of
binding sets, and compiles exactly one pipeline. -/
theorem bind_up_dir_eval_trace (shader : Nat) (entry_point : String)
    (args : RenderDir → List (BindAccess × Resource))
    (log : List BindEvent) :
    (((Binder.bind_up_dir shader entry_point args).run log).2
        = log ++ [.evalArgs .Forward, .evalArgs .Forward,
                  .evalArgs .Backward, .compilePipeline]) ∧
    (((Binder.bind_up_dir shader entry_point args).run log).1.2
        = ⟨Binder.group_entries (args .Forward),
           Binder.group_entries (args .Backward)⟩) ∧
    (List.count BindEvent.compilePipeline
        (((Binder.bind_up_dir shader entry_point args).run log).2)
      = List.count BindEvent.compilePipeline log + 1) := by
  have htrace : ((Binder.bind_up_dir shader entry_point args).run log).2
      = ((((log ++ [.evalArgs .Forward]) ++ [.evalArgs .Forward])
          ++ [.evalArgs .Backward]) ++ [.compilePipeline]) := rfl
  refine ⟨?_, rfl, ?_⟩
  · rw [htrace]
    simp
  · rw [htrace]
    simp [List.count_append, List.count_singleton]

/-- C10: the binding layout (and hence the compiled pipeline) produced by
the direction-indexed binder is derived solely from the resource list the
mapping returns for Forward: any two mappings agreeing on Forward yield
identical pipelines, whatever they return for Backward. -/
theorem bind_up_dir_layout_from_forward (shader : Nat)
    (entry_point : String)
    (f g : RenderDir → List (BindAccess × Resource))
    (log1 log2 : List BindEvent)
    (h : f .Forward = g .Forward) :
    ((Binder.bind_up_dir shader entry_point f).run log1).1.1
      = ((Binder.bind_up_dir shader entry_point g).run log2).1.1 := by
  have hf : ((Binder.bind_up_dir shader entry_point f).run log1).1.1
      = ⟨shader, entry_point, Binder.layout_entries (f .Forward)⟩ := rfl
  have hg : ((Binder.bind_up_dir shader entry_point g).run log2).1.1
      = ⟨shader, entry_point, Binder.layout_entries (g .Forward)⟩ := rfl
  rw [hf, hg, h]

/-- Witness for C10: two concrete mappings that agree on Forward but differ
completely on Backward (different length, access modes and resource kinds)
produce the same compiled pipeline. -/
theorem bind_up_dir_layout_from_forward_witness :
    ((Binder.bind_up_dir 0 ("life")
        (fun _ => ([(.ReadOnly, .sampler ⟨7⟩)] :
          List (BindAccess × Resource)))).run []).1.1
      = ((Binder.bind_up_dir 0 ("life")
          (fun dir => match dir with
            | .Forward => ([(.ReadOnly, .sampler ⟨7⟩)] :
                List (BindAccess × Resource))
            | .Backward => [(.WriteOnly, .texture ⟨1, 2⟩),
                (.ReadOnly, .sampler ⟨9⟩)])).run []).1.1 :=
  bind_up_dir_layout_from_forward 0 ("life") _ _ [] [] rfl

/-- C8: copyin_vec requires the host data length to equal the grid area and
copyin_buf requires identical dimensions; a violated precondition fails
(the assert panic, modelled as the error branch) before any staging buffer
or GPU command exists, and under the precondition the failure branch is
unreachable (the result is the ok branch carrying the copy command). -/
theorem copyin_asserts (self src : Buffer2D) (device : Device)
    (data : List Nat) :
    (data.length = self.dim.area →
      self.copyin_vec device data
        = .ok ([.copyBufferToBuffer device.nextId 0 self.buf.id 0
            (data.length * self.elemSize)], ⟨device.nextId + 1⟩)) ∧
    (data.length ≠ self.dim.area →
      self.copyin_vec device data
        = .error ("assertion failed: data.len() == self.dim.area()")) ∧
    (src.dim = self.dim →
      self.copyin_buf src
        = .ok (.copyBufferToBuffer src.buf.id 0 self.buf.id 0
            (self.dim.area * self.elemSize))) ∧
    (src.dim ≠ self.dim →
      self.copyin_buf src
        = .error ("assertion failed: src.dim() == self.dim()")) := by
  refine ⟨?_, ?_, ?_, ?_⟩ <;> intro h <;>
    simp [Buffer2D.copyin_vec, Buffer2D.copyin_buf, Buffer.new_init,
      Device.fresh, h]

/-- Witness for C8 at concrete inputs: a 2x2 grid accepts 4 host elements
and rejects 3; a same-size copy accepts an identical 2x2 source and
rejects a 4x1 source even though its area is also 4. -/
theorem copyin_asserts_witness :
    (Buffer2D.copyin_vec ⟨⟨10, 16, .Storage, none⟩, ⟨2, 2⟩, ("g"), 4⟩ ⟨20⟩
        [1, 2, 3, 4]
      = .ok ([.copyBufferToBuffer 20 0 10 0 (4 * 4)], ⟨20 + 1⟩)) ∧
    (Buffer2D.copyin_vec ⟨⟨10, 16, .Storage, none⟩, ⟨2, 2⟩, ("g"), 4⟩ ⟨20⟩
        [1, 2, 3]
      = .error ("assertion failed: data.len() == self.dim.area()")) ∧
    (Buffer2D.copyin_buf ⟨⟨10, 16, .Storage, none⟩, ⟨2, 2⟩, ("g"), 4⟩
        ⟨⟨11, 16, .Storage, none⟩, ⟨2, 2⟩, ("h"), 4⟩
      = .ok (.copyBufferToBuffer 11 0 10 0 (4 * 4))) ∧
    (Buffer2D.copyin_buf ⟨⟨10, 16, .Storage, none⟩, ⟨2, 2⟩, ("g"), 4⟩
        ⟨⟨12, 16, .Storage, none⟩, ⟨4, 1⟩, ("k"), 4⟩
      = .error ("assertion failed: src.dim() == self.dim()")) :=
  ⟨(copyin_asserts ⟨⟨10, 16, .Storage, none⟩, ⟨2, 2⟩, ("g"), 4⟩
      ⟨⟨11, 16, .Storage, none⟩, ⟨2, 2⟩, ("h"), 4⟩ ⟨20⟩ [1, 2, 3, 4]).1 rfl,
   (copyin_asserts ⟨⟨10, 16, .Storage, none⟩, ⟨2, 2⟩, ("g"), 4⟩
      ⟨⟨11, 16, .Storage, none⟩, ⟨2, 2⟩, ("h"), 4⟩ ⟨20⟩ [1, 2, 3]).2.1
      (by decide),
   (copyin_asserts ⟨⟨10, 16, .Storage, none⟩, ⟨2, 2⟩, ("g"), 4⟩
      ⟨⟨11, 16, .Storage, none⟩, ⟨2, 2⟩, ("h"), 4⟩ ⟨20⟩ [1, 2, 3, 4]).2.2.1 rfl,
   (copyin_asserts ⟨⟨10, 16, .Storage, none⟩, ⟨2, 2⟩, ("g"), 4⟩
      ⟨⟨12, 16, .Storage, none⟩, ⟨4, 1⟩, ("k"), 4⟩ ⟨20⟩ [1, 2, 3, 4]).2.2.2
      (by decide)⟩

end Zounds
